import Mathlib

/-!
Shallow embedding of the change-tracking query subsystem (`src/tracked.rs`):
the three tracker variants `Mutated<T>`, `Added<T>`, `Changed<T>` and their
`Fetch` implementations `FetchMutated`, `FetchAdded`, `FetchChanged`.

The `Archetype` type and the `Access` enum live outside the given source
(they are external collaborators); they are modelled from the spec.  Component
types are identified by a `Nat` type id standing in for `TypeId::of::<T>()`.
Raw flag-array pointers (`NonNull<bool>`) are modelled as the boolean lists
they point into; a pointer-offset read `*ptr.add(n)` becomes `List.get? n`,
whose `none` case marks the out-of-bounds read that is undefined behaviour in
the source.  `NonNull::dangling()` is modelled as the empty list, so every
read through a dangling tracker lands in the undefined (`none`) branch.
-/

namespace HecsTracked

/-- Modelled from the spec: the conflict-relevant access level declared by a
query term (spec 4.2 distinguishes only "shared/read" and "exclusive/write";
the `Access` enum itself is external to the given source). -/
inductive Access where
  | Read
  | Write
deriving DecidableEq

/-- Modelled from the spec: one component column of an archetype — a data
array plus the two parallel boolean flag arrays "added" and "mutated",
index-aligned with the data (spec 3, "Flag Columns").  Component data is
type-erased; a `Nat` payload stands in for one stored value. -/
structure Column where
  tid : Nat
  data : List Nat
  added : List Bool
  mutated : List Bool
deriving DecidableEq

/-- Modelled from the spec: an archetype as consumed by the tracking
subsystem — a table whose columns (one per contained component type) all have
length equal to the archetype's current row count (spec 3, "Archetype"). -/
structure Archetype where
  columns : List Column
  rowCount : Nat
deriving DecidableEq

/-- Modelled from the spec: the storage-engine invariant that every data and
flag array of every column is index-aligned and of length `rowCount`
(spec 3: "all of length equal to the archetype's current row count"). -/
def Archetype.wf (a : Archetype) : Bool :=
  a.columns.all fun c =>
    c.data.length == a.rowCount &&
    c.added.length == a.rowCount &&
    c.mutated.length == a.rowCount

/-- Modelled from the spec: the per-archetype "contains type T" predicate
consumed from the storage engine (`archetype.has::<T>()`). -/
def Archetype.has (a : Archetype) (tid : Nat) : Bool :=
  a.columns.any fun c => c.tid == tid

/-- Index of the first column with the given type id, if any. -/
def findTid (tid : Nat) : List Column → Option Nat
  | [] => none
  | c :: cs => if c.tid == tid then some 0 else (findTid tid cs).map (· + 1)

/-- Modelled from the spec: the per-archetype, per-type state-token resolver
(`archetype.get_state::<T>()`) — an opaque integer token identifying the
column for `T`, absent when the archetype lacks such a column (spec 4.1). -/
def Archetype.get_state (a : Archetype) (tid : Nat) : Option Nat :=
  findTid tid a.columns

/-- Modelled from the spec: the accessor returning the raw reference to the
"added" flag array of the column identified by a state token
(`archetype.get_added(state)`); a token not resolved from this archetype
yields an unspecified (here: empty, never-in-bounds) array. -/
def Archetype.get_added (a : Archetype) (s : Nat) : List Bool :=
  match a.columns.get? s with
  | some c => c.added
  | none => []

/-- Modelled from the spec: the accessor returning the raw reference to the
"mutated" flag array of the column identified by a state token
(`archetype.get_mutated(state)`). -/
def Archetype.get_mutated (a : Archetype) (s : Nat) : List Bool :=
  match a.columns.get? s with
  | some c => c.mutated
  | none => []

/-- `FetchMutated<T>(NonNull<bool>, PhantomData)`: the bound tracker for
`Mutated<T>`, holding the pointer to the "mutated" flag array. -/
structure FetchMutated where
  ptr : List Bool
deriving DecidableEq

/-- `FetchMutated::dangling` — `Self(NonNull::dangling(), PhantomData)`. -/
def FetchMutated.dangling : FetchMutated :=
  ⟨[]⟩

/-- `FetchMutated::access` — `Some(Access::Read)` when the archetype has `T`,
else `None`. -/
def FetchMutated.access (tid : Nat) (a : Archetype) : Option Access :=
  if a.has tid then some Access.Read else none

/-- `FetchMutated::borrow` — empty body. -/
def FetchMutated.borrow (_a : Archetype) (_s : Nat) : Unit :=
  ()

/-- `FetchMutated::prepare` — `archetype.get_state::<T>()`. -/
def FetchMutated.prepare (tid : Nat) (a : Archetype) : Option Nat :=
  a.get_state tid

/-- `FetchMutated::execute` — `Self(archetype.get_mutated(state), PhantomData)`. -/
def FetchMutated.execute (a : Archetype) (s : Nat) : FetchMutated :=
  ⟨a.get_mutated s⟩

/-- `FetchMutated::release` — empty body. -/
def FetchMutated.release (_a : Archetype) (_s : Nat) : Unit :=
  ()

/-- `FetchMutated::for_each_borrow` — `f(TypeId::of::<T>(), false)`, one call;
the `FnMut` closure is embedded as a state-threading function on `σ`. -/
def FetchMutated.for_each_borrow {σ : Type} (tid : Nat)
    (f : Nat → Bool → σ → σ) (s0 : σ) : σ :=
  f tid false s0

/-- `FetchMutated::get` — `*self.0.as_ptr().add(n)`; `none` is the
out-of-bounds (undefined-behaviour) branch of the pointer read. -/
def FetchMutated.get (fe : FetchMutated) (n : Nat) : Option Bool :=
  fe.ptr.get? n

/-- `FetchAdded<T>(NonNull<bool>, PhantomData)`: the bound tracker for
`Added<T>`, holding the pointer to the "added" flag array. -/
structure FetchAdded where
  ptr : List Bool
deriving DecidableEq

/-- `FetchAdded::dangling` — `Self(NonNull::dangling(), PhantomData)`. -/
def FetchAdded.dangling : FetchAdded :=
  ⟨[]⟩

/-- `FetchAdded::access` — `Some(Access::Read)` when the archetype has `T`,
else `None`. -/
def FetchAdded.access (tid : Nat) (a : Archetype) : Option Access :=
  if a.has tid then some Access.Read else none

/-- `FetchAdded::borrow` — empty body. -/
def FetchAdded.borrow (_a : Archetype) (_s : Nat) : Unit :=
  ()

/-- `FetchAdded::prepare` — `archetype.get_state::<T>()`. -/
def FetchAdded.prepare (tid : Nat) (a : Archetype) : Option Nat :=
  a.get_state tid

/-- `FetchAdded::execute` — `Self(archetype.get_added(state), PhantomData)`. -/
def FetchAdded.execute (a : Archetype) (s : Nat) : FetchAdded :=
  ⟨a.get_added s⟩

/-- `FetchAdded::release` — empty body. -/
def FetchAdded.release (_a : Archetype) (_s : Nat) : Unit :=
  ()

/-- `FetchAdded::for_each_borrow` — `f(TypeId::of::<T>(), false)`, one call. -/
def FetchAdded.for_each_borrow {σ : Type} (tid : Nat)
    (f : Nat → Bool → σ → σ) (s0 : σ) : σ :=
  f tid false s0

/-- `FetchAdded::get` — `*self.0.as_ptr().add(n)`. -/
def FetchAdded.get (fe : FetchAdded) (n : Nat) : Option Bool :=
  fe.ptr.get? n

/-- `FetchChanged<T>(NonNull<bool>, NonNull<bool>, PhantomData)`: the bound
tracker for `Changed<T>`; field 0 points into "mutated", field 1 into
"added" (the order `execute` binds them). -/
structure FetchChanged where
  ptrM : List Bool
  ptrA : List Bool
deriving DecidableEq

/-- `FetchChanged::dangling` — both pointers dangling. -/
def FetchChanged.dangling : FetchChanged :=
  ⟨[], []⟩

/-- `FetchChanged::access` — `Some(Access::Read)` when the archetype has `T`,
else `None`. -/
def FetchChanged.access (tid : Nat) (a : Archetype) : Option Access :=
  if a.has tid then some Access.Read else none

/-- `FetchChanged::borrow` — empty body. -/
def FetchChanged.borrow (_a : Archetype) (_s : Nat) : Unit :=
  ()

/-- `FetchChanged::prepare` — `archetype.get_state::<T>()`. -/
def FetchChanged.prepare (tid : Nat) (a : Archetype) : Option Nat :=
  a.get_state tid

/-- `FetchChanged::execute` — binds `archetype.get_mutated(state)` and
`archetype.get_added(state)`, in that order. -/
def FetchChanged.execute (a : Archetype) (s : Nat) : FetchChanged :=
  ⟨a.get_mutated s, a.get_added s⟩

/-- `FetchChanged::release` — empty body. -/
def FetchChanged.release (_a : Archetype) (_s : Nat) : Unit :=
  ()

/-- `FetchChanged::for_each_borrow` — `f(TypeId::of::<T>(), false)`, one call. -/
def FetchChanged.for_each_borrow {σ : Type} (tid : Nat)
    (f : Nat → Bool → σ → σ) (s0 : σ) : σ :=
  f tid false s0

/-- `FetchChanged::get` — `*self.0.as_ptr().add(n) || *self.1.as_ptr().add(n)`,
with Rust's short-circuit `||`: the "added" pointer is only read when the
"mutated" read yields `false`. -/
def FetchChanged.get (fe : FetchChanged) (n : Nat) : Option Bool :=
  match fe.ptrM.get? n with
  | none => none
  | some m => if m then some true else fe.ptrA.get? n

/-! Helper lemmas about the spec-modelled archetype operations. -/

theorem findTid_isSome (tid : Nat) (l : List Column) :
    (findTid tid l).isSome = l.any fun c => c.tid == tid := by
  induction l with
  | nil => rfl
  | cons c cs ih =>
    simp only [findTid, List.any_cons]
    cases h : c.tid == tid with
    | true => simp [h]
    | false =>
      rw [if_neg (by simp [h]), Bool.false_or, ← ih]
      cases findTid tid cs <;> rfl

theorem findTid_some {tid : Nat} {l : List Column} {i : Nat}
    (h : findTid tid l = some i) :
    ∃ c, l.get? i = some c ∧ c.tid = tid := by
  induction l generalizing i with
  | nil => simp [findTid] at h
  | cons c cs ih =>
    simp only [findTid] at h
    cases hc : c.tid == tid with
    | true =>
      rw [if_pos (by simp [hc])] at h
      obtain rfl : i = 0 := by injection h with h; exact h.symm
      exact ⟨c, rfl, by simpa using hc⟩
    | false =>
      rw [if_neg (by simp [hc])] at h
      obtain ⟨j, hj, rfl⟩ := Option.map_eq_some'.mp h
      obtain ⟨d, hd, hdt⟩ := ih hj
      exact ⟨d, by simpa using hd, hdt⟩

theorem wf_column_lengths {a : Archetype} {s : Nat} {c : Column}
    (hw : a.wf = true) (hc : a.columns.get? s = some c) :
    c.data.length = a.rowCount ∧ c.added.length = a.rowCount ∧
      c.mutated.length = a.rowCount := by
  have hmem : c ∈ a.columns := List.get?_mem hc
  simp only [Archetype.wf, List.all_eq_true, Bool.and_eq_true, beq_iff_eq] at hw
  obtain ⟨⟨hd, ha⟩, hm⟩ := hw c hmem
  exact ⟨hd, ha, hm⟩

theorem get?_isSome_of_lt {l : List Bool} {n : Nat} (h : n < l.length) :
    ∃ b, l.get? n = some b :=
  ⟨l.get ⟨n, h⟩, List.get?_eq_get h⟩

/-!
State-passing wrappers.  Every `Fetch` method of the source takes the
archetype by shared reference (`&Archetype`) and returns no archetype; in the
state-passing embedding each operation therefore returns its result together
with the archetype it leaves behind, which is the one it received.  These
wrappers make the frame property (no operation mutates flags or data) an
explicit statement rather than an artefact of the type of the pure model.
-/

/-- `FetchMutated::access` run against an archetype, returning the archetype
it leaves behind. -/
def FetchMutated.accessS (tid : Nat) (a : Archetype) : Option Access × Archetype :=
  (FetchMutated.access tid a, a)

/-- `FetchMutated::prepare` in state-passing form. -/
def FetchMutated.prepareS (tid : Nat) (a : Archetype) : Option Nat × Archetype :=
  (FetchMutated.prepare tid a, a)

/-- `FetchMutated::borrow` in state-passing form. -/
def FetchMutated.borrowS (a : Archetype) (s : Nat) : Unit × Archetype :=
  (FetchMutated.borrow a s, a)

/-- `FetchMutated::execute` in state-passing form. -/
def FetchMutated.executeS (a : Archetype) (s : Nat) : FetchMutated × Archetype :=
  (FetchMutated.execute a s, a)

/-- `FetchMutated::release` in state-passing form. -/
def FetchMutated.releaseS (a : Archetype) (s : Nat) : Unit × Archetype :=
  (FetchMutated.release a s, a)

/-- `FetchMutated::get` run while archetype `a` is live, in state-passing
form (`get` never touches the archetype, only the bound tracker). -/
def FetchMutated.getS (fe : FetchMutated) (n : Nat) (a : Archetype) :
    Option Bool × Archetype :=
  (fe.get n, a)

/-- `FetchMutated::dangling` run while archetype `a` is live. -/
def FetchMutated.danglingS (a : Archetype) : FetchMutated × Archetype :=
  (FetchMutated.dangling, a)

/-- `FetchAdded::access` in state-passing form. -/
def FetchAdded.accessS (tid : Nat) (a : Archetype) : Option Access × Archetype :=
  (FetchAdded.access tid a, a)

/-- `FetchAdded::prepare` in state-passing form. -/
def FetchAdded.prepareS (tid : Nat) (a : Archetype) : Option Nat × Archetype :=
  (FetchAdded.prepare tid a, a)

/-- `FetchAdded::borrow` in state-passing form. -/
def FetchAdded.borrowS (a : Archetype) (s : Nat) : Unit × Archetype :=
  (FetchAdded.borrow a s, a)

/-- `FetchAdded::execute` in state-passing form. -/
def FetchAdded.executeS (a : Archetype) (s : Nat) : FetchAdded × Archetype :=
  (FetchAdded.execute a s, a)

/-- `FetchAdded::release` in state-passing form. -/
def FetchAdded.releaseS (a : Archetype) (s : Nat) : Unit × Archetype :=
  (FetchAdded.release a s, a)

/-- `FetchAdded::get` in state-passing form. -/
def FetchAdded.getS (fe : FetchAdded) (n : Nat) (a : Archetype) :
    Option Bool × Archetype :=
  (fe.get n, a)

/-- `FetchAdded::dangling` run while archetype `a` is live. -/
def FetchAdded.danglingS (a : Archetype) : FetchAdded × Archetype :=
  (FetchAdded.dangling, a)

/-- `FetchChanged::access` in state-passing form. -/
def FetchChanged.accessS (tid : Nat) (a : Archetype) : Option Access × Archetype :=
  (FetchChanged.access tid a, a)

/-- `FetchChanged::prepare` in state-passing form. -/
def FetchChanged.prepareS (tid : Nat) (a : Archetype) : Option Nat × Archetype :=
  (FetchChanged.prepare tid a, a)

/-- `FetchChanged::borrow` in state-passing form. -/
def FetchChanged.borrowS (a : Archetype) (s : Nat) : Unit × Archetype :=
  (FetchChanged.borrow a s, a)

/-- `FetchChanged::execute` in state-passing form. -/
def FetchChanged.executeS (a : Archetype) (s : Nat) : FetchChanged × Archetype :=
  (FetchChanged.execute a s, a)

/-- `FetchChanged::release` in state-passing form. -/
def FetchChanged.releaseS (a : Archetype) (s : Nat) : Unit × Archetype :=
  (FetchChanged.release a s, a)

/-- `FetchChanged::get` in state-passing form. -/
def FetchChanged.getS (fe : FetchChanged) (n : Nat) (a : Archetype) :
    Option Bool × Archetype :=
  (fe.get n, a)

/-- `FetchChanged::dangling` run while archetype `a` is live. -/
def FetchChanged.danglingS (a : Archetype) : FetchChanged × Archetype :=
  (FetchChanged.dangling, a)

/-- A concrete archetype with one column (type id 5, two rows): row 0 was
added and never mutated, row 1 was mutated and not added. -/
def arch1 : Archetype :=
  ⟨[⟨5, [123, 7], [true, false], [false, true]⟩], 2⟩

theorem get_state_none_iff (a : Archetype) (tid : Nat) :
    a.get_state tid = none ↔ a.has tid = false := by
  have h := findTid_isSome tid a.columns
  simp only [Archetype.get_state, Archetype.has]
  rw [← h]
  cases findTid tid a.columns <;> simp

theorem exec_reads {a : Archetype} {tid s n : Nat}
    (hw : a.wf = true) (hs : a.get_state tid = some s) (hn : n < a.rowCount) :
    ∃ c : Column, a.columns.get? s = some c ∧
      (FetchAdded.execute a s).get n = c.added.get? n ∧
      (FetchMutated.execute a s).get n = c.mutated.get? n ∧
      (FetchChanged.execute a s).ptrM = c.mutated ∧
      (FetchChanged.execute a s).ptrA = c.added ∧
      n < c.added.length ∧ n < c.mutated.length := by
  obtain ⟨c, hc, _⟩ := findTid_some hs
  obtain ⟨_, ha, hm⟩ := wf_column_lengths hw hc
  have hc2 : a.columns[s]? = some c := by rw [← List.get?_eq_getElem?]; exact hc
  refine ⟨c, hc, ?_, ?_, ?_, ?_, ha ▸ hn, hm ▸ hn⟩
  · simp [FetchAdded.get, FetchAdded.execute, Archetype.get_added, hc2]
  · simp [FetchMutated.get, FetchMutated.execute, Archetype.get_mutated, hc2]
  · simp [FetchChanged.execute, Archetype.get_mutated, hc2]
  · simp [FetchChanged.execute, Archetype.get_added, hc2]

/-- Claim C1: for a state token resolved from the archetype and an in-range
row `n`, the `Changed` row read equals the disjunction of the `Added` and
`Mutated` row reads on the same archetype, token and row. -/
theorem changed_is_added_or_mutated (tid s n : Nat) (a : Archetype)
    (hw : a.wf = true) (hs : a.get_state tid = some s) (hn : n < a.rowCount) :
    ∃ av mv, (FetchAdded.execute a s).get n = some av ∧
      (FetchMutated.execute a s).get n = some mv ∧
      (FetchChanged.execute a s).get n = some (av || mv) := by
  obtain ⟨c, _, hga, hgm, hM, hA, hla, hlm⟩ := exec_reads hw hs hn
  obtain ⟨av, hav⟩ := get?_isSome_of_lt hla
  obtain ⟨mv, hmv⟩ := get?_isSome_of_lt hlm
  refine ⟨av, mv, by rw [hga, hav], by rw [hgm, hmv], ?_⟩
  simp only [FetchChanged.get, hM, hA, hmv, hav]
  cases mv <;> cases av <;> simp

/-- Claim C1 witness: the property at `arch1`, type id 5, token 0, row 1. -/
theorem changed_is_added_or_mutated_w :
    ∃ av mv, (FetchAdded.execute arch1 0).get 1 = some av ∧
      (FetchMutated.execute arch1 0).get 1 = some mv ∧
      (FetchChanged.execute arch1 0).get 1 = some (av || mv) :=
  changed_is_added_or_mutated 5 0 1 arch1 (by decide) (by decide) (by decide)

/-- Claim C2: for a resolved token and in-range row `n`, the `Added` row read
returns exactly the value of the archetype's "added" flag array at `n`; in
particular a row whose "added" flag is false (e.g. only written through a
mutable accessor, never newly attached) reads `false`. -/
theorem added_reads_added_flag (tid s n : Nat) (a : Archetype)
    (hw : a.wf = true) (hs : a.get_state tid = some s) (hn : n < a.rowCount) :
    ∃ c b, a.columns.get? s = some c ∧ c.added.get? n = some b ∧
      (FetchAdded.execute a s).get n = some b ∧
      (c.added.get? n = some false → (FetchAdded.execute a s).get n = some false) := by
  obtain ⟨c, hc, hga, _, _, _, hla, _⟩ := exec_reads hw hs hn
  obtain ⟨b, hb⟩ := get?_isSome_of_lt hla
  exact ⟨c, b, hc, hb, by rw [hga, hb], fun hf => by rw [hga, hf]⟩

/-- Claim C2 witness: at `arch1`, token 0, row 1 — a row that was mutated but
not added — the `Added` read returns the flag value `false`. -/
theorem added_reads_added_flag_w :
    ∃ c b, arch1.columns.get? 0 = some c ∧ c.added.get? 1 = some b ∧
      (FetchAdded.execute arch1 0).get 1 = some b ∧
      (c.added.get? 1 = some false → (FetchAdded.execute arch1 0).get 1 = some false) :=
  added_reads_added_flag 5 0 1 arch1 (by decide) (by decide) (by decide)

/-- Claim C3: for a resolved token and in-range row `n`, the `Mutated` row
read returns exactly the value of the archetype's "mutated" flag array at
`n`; in particular a row whose "mutated" flag is false (e.g. only added,
never written through a mutable accessor) reads `false`. -/
theorem mutated_reads_mutated_flag (tid s n : Nat) (a : Archetype)
    (hw : a.wf = true) (hs : a.get_state tid = some s) (hn : n < a.rowCount) :
    ∃ c b, a.columns.get? s = some c ∧ c.mutated.get? n = some b ∧
      (FetchMutated.execute a s).get n = some b ∧
      (c.mutated.get? n = some false → (FetchMutated.execute a s).get n = some false) := by
  obtain ⟨c, hc, _, hgm, _, _, _, hlm⟩ := exec_reads hw hs hn
  obtain ⟨b, hb⟩ := get?_isSome_of_lt hlm
  exact ⟨c, b, hc, hb, by rw [hgm, hb], fun hf => by rw [hgm, hf]⟩

/-- Claim C3 witness: at `arch1`, token 0, row 0 — a row that was added but
never mutated — the `Mutated` read returns the flag value `false`. -/
theorem mutated_reads_mutated_flag_w :
    ∃ c b, arch1.columns.get? 0 = some c ∧ c.mutated.get? 0 = some b ∧
      (FetchMutated.execute arch1 0).get 0 = some b ∧
      (c.mutated.get? 0 = some false → (FetchMutated.execute arch1 0).get 0 = some false) :=
  mutated_reads_mutated_flag 5 0 0 arch1 (by decide) (by decide) (by decide)

/-- Claim C4: for each of the three variants and every archetype, the access
declaration is `some Read` when the archetype contains a column for the
tracked type, `none` when it does not, and in no case `some Write`. -/
theorem access_shared_or_none (tid : Nat) (a : Archetype) :
    FetchMutated.access tid a = (if a.has tid then some Access.Read else none) ∧
    FetchAdded.access tid a = (if a.has tid then some Access.Read else none) ∧
    FetchChanged.access tid a = (if a.has tid then some Access.Read else none) ∧
    FetchMutated.access tid a ≠ some Access.Write ∧
    FetchAdded.access tid a ≠ some Access.Write ∧
    FetchChanged.access tid a ≠ some Access.Write := by
  refine ⟨rfl, rfl, rfl, ?_, ?_, ?_⟩ <;>
    cases h : a.has tid <;>
      simp [FetchMutated.access, FetchAdded.access, FetchChanged.access, h]

/-- Claim C5: for each variant and every archetype, `prepare` returns a state
token exactly when the archetype contains a column for the tracked type (the
absent case is the `none` value of the `Option` return type, not an error),
and `prepare` leaves the archetype unchanged. -/
theorem prepare_some_iff_contains (tid : Nat) (a : Archetype) :
    (FetchMutated.prepare tid a).isSome = a.has tid ∧
    (FetchAdded.prepare tid a).isSome = a.has tid ∧
    (FetchChanged.prepare tid a).isSome = a.has tid ∧
    (FetchMutated.prepareS tid a).2 = a ∧
    (FetchAdded.prepareS tid a).2 = a ∧
    (FetchChanged.prepareS tid a).2 = a :=
  ⟨findTid_isSome tid a.columns, findTid_isSome tid a.columns,
    findTid_isSome tid a.columns, rfl, rfl, rfl⟩

/-- Claim C6: with a state token resolved from the same archetype and a row
index below the archetype's row count, every row read of each variant is an
in-bounds read of the bound flag array(s): the out-of-bounds (`none`) branch
of the embedded pointer read is unreachable. -/
theorem get_in_bounds (tid s n : Nat) (a : Archetype)
    (hw : a.wf = true) (hs : a.get_state tid = some s) (hn : n < a.rowCount) :
    ((FetchMutated.execute a s).get n).isSome = true ∧
    ((FetchAdded.execute a s).get n).isSome = true ∧
    ((FetchChanged.execute a s).get n).isSome = true := by
  obtain ⟨c, _, hga, hgm, hM, hA, hla, hlm⟩ := exec_reads hw hs hn
  obtain ⟨av, hav⟩ := get?_isSome_of_lt hla
  obtain ⟨mv, hmv⟩ := get?_isSome_of_lt hlm
  refine ⟨by rw [hgm, hmv]; rfl, by rw [hga, hav]; rfl, ?_⟩
  simp only [FetchChanged.get, hM, hA, hmv, hav]
  cases mv <;> simp

/-- Claim C6 witness: the in-bounds property at `arch1`, type id 5, token 0,
row 1. -/
theorem get_in_bounds_w :
    ((FetchMutated.execute arch1 0).get 1).isSome = true ∧
    ((FetchAdded.execute arch1 0).get 1).isSome = true ∧
    ((FetchChanged.execute arch1 0).get 1).isSome = true :=
  get_in_bounds 5 0 1 arch1 (by decide) (by decide) (by decide)

/-- Claim C7: for each variant and every archetype, the access declaration
returns `none` exactly when column resolution returns `none`: the
archetype-contains-T predicate and the state-token resolver agree on
absence. -/
theorem access_none_iff_prepare_none (tid : Nat) (a : Archetype) :
    (FetchMutated.access tid a = none ↔ FetchMutated.prepare tid a = none) ∧
    (FetchAdded.access tid a = none ↔ FetchAdded.prepare tid a = none) ∧
    (FetchChanged.access tid a = none ↔ FetchChanged.prepare tid a = none) := by
  have hacc : (if a.has tid then some Access.Read else none) = none ↔
      a.has tid = false := by
    cases h : a.has tid <;> simp [h]
  have key : (if a.has tid then some Access.Read else none) = none ↔
      a.get_state tid = none := hacc.trans (get_state_none_iff a tid).symm
  exact ⟨key, key, key⟩

/-- Claim C8: every operation of all three variants — access, prepare,
borrow, execute, release, get, dangling — leaves the archetype (its flag
arrays and its data columns alike) unchanged; borrow and release return
the unit value and change nothing at all. -/
theorem ops_leave_archetype_unchanged (tid s n : Nat) (a : Archetype)
    (fm : FetchMutated) (fa : FetchAdded) (fc : FetchChanged) :
    (FetchMutated.accessS tid a).2 = a ∧
    (FetchMutated.prepareS tid a).2 = a ∧
    FetchMutated.borrowS a s = ((), a) ∧
    (FetchMutated.executeS a s).2 = a ∧
    FetchMutated.releaseS a s = ((), a) ∧
    (FetchMutated.getS fm n a).2 = a ∧
    (FetchMutated.danglingS a).2 = a ∧
    (FetchAdded.accessS tid a).2 = a ∧
    (FetchAdded.prepareS tid a).2 = a ∧
    FetchAdded.borrowS a s = ((), a) ∧
    (FetchAdded.executeS a s).2 = a ∧
    FetchAdded.releaseS a s = ((), a) ∧
    (FetchAdded.getS fa n a).2 = a ∧
    (FetchAdded.danglingS a).2 = a ∧
    (FetchChanged.accessS tid a).2 = a ∧
    (FetchChanged.prepareS tid a).2 = a ∧
    FetchChanged.borrowS a s = ((), a) ∧
    (FetchChanged.executeS a s).2 = a ∧
    FetchChanged.releaseS a s = ((), a) ∧
    (FetchChanged.getS fc n a).2 = a ∧
    (FetchChanged.danglingS a).2 = a :=
  ⟨rfl, rfl, rfl, rfl, rfl, rfl, rfl, rfl, rfl, rfl, rfl, rfl, rfl, rfl,
    rfl, rfl, rfl, rfl, rfl, rfl, rfl⟩

/-- Claim C9: the three fetch implementations agree extensionally on their
shared protocol operations — access, prepare, borrow, release and
for_each_borrow coincide on every archetype and token — and they differ only
in which flag arrays `execute` binds: `FetchChanged` binds exactly the
"mutated" array bound by `FetchMutated` and the "added" array bound by
`FetchAdded`. -/
theorem variants_agree_on_protocol (tid s : Nat) (a : Archetype) :
    FetchMutated.access tid a = FetchAdded.access tid a ∧
    FetchAdded.access tid a = FetchChanged.access tid a ∧
    FetchMutated.prepare tid a = FetchAdded.prepare tid a ∧
    FetchAdded.prepare tid a = FetchChanged.prepare tid a ∧
    FetchMutated.borrow a s = FetchAdded.borrow a s ∧
    FetchAdded.borrow a s = FetchChanged.borrow a s ∧
    FetchMutated.release a s = FetchAdded.release a s ∧
    FetchAdded.release a s = FetchChanged.release a s ∧
    (∀ (σ : Type) (f : Nat → Bool → σ → σ) (s0 : σ),
      FetchMutated.for_each_borrow tid f s0 = FetchAdded.for_each_borrow tid f s0 ∧
      FetchAdded.for_each_borrow tid f s0 = FetchChanged.for_each_borrow tid f s0) ∧
    (FetchChanged.execute a s).ptrM = (FetchMutated.execute a s).ptr ∧
    (FetchChanged.execute a s).ptrA = (FetchAdded.execute a s).ptr :=
  ⟨rfl, rfl, rfl, rfl, rfl, rfl, rfl, rfl, fun _ _ _ => ⟨rfl, rfl⟩, rfl, rfl⟩

/-- Claim C10: for each variant, `for_each_borrow` invokes its callback
exactly once, with the tracked type id and the shared marker `false`,
unconditionally — it takes no archetype argument, so the call happens
whether or not any archetype contains the type (witnessed by the trace
instantiation recording exactly one invocation). -/
theorem for_each_borrow_once (tid : Nat) :
    (∀ (σ : Type) (f : Nat → Bool → σ → σ) (s0 : σ),
      FetchMutated.for_each_borrow tid f s0 = f tid false s0 ∧
      FetchAdded.for_each_borrow tid f s0 = f tid false s0 ∧
      FetchChanged.for_each_borrow tid f s0 = f tid false s0) ∧
    FetchMutated.for_each_borrow tid (fun t u l => l ++ [(t, u)])
      ([] : List (Nat × Bool)) = [(tid, false)] ∧
    FetchAdded.for_each_borrow tid (fun t u l => l ++ [(t, u)])
      ([] : List (Nat × Bool)) = [(tid, false)] ∧
    FetchChanged.for_each_borrow tid (fun t u l => l ++ [(t, u)])
      ([] : List (Nat × Bool)) = [(tid, false)] :=
  ⟨fun _ _ _ => ⟨rfl, rfl, rfl⟩, rfl, rfl, rfl⟩
